import Mathlib

/-!
Verification of the pre-flight environment checker
(`lmdeploy/pytorch/check_env/__init__.py`).

The module is a sequence of probe functions.  Each probe performs guarded
library loads, version comparisons and smoke tests; it either returns normally,
logs a non-fatal warning, or routes a caught failure through the diagnostic
reporter `_handle_exception`, which logs and calls `exit(1)`.

The shallow embedding below renders every probe as a pure function from the
externally-determined facts of a run (did an import succeed, which exception
was raised, what version is installed, what the device capability is) to the
pair of the emitted event trace and the control outcome.  Outcomes are
`ok` (normal return), `exited code` (process terminated via `exit`), or
`raised` (a Python exception escaped the probe to its caller).
-/

namespace CheckEnv

/-- A parsed release version, as produced by `packaging.version.parse` on the
plain `major.minor.micro` strings this module compares (ordering on such
releases is lexicographic on the numeric components). -/
structure Version where
  major : Nat
  minor : Nat
  micro : Nat
deriving DecidableEq, Repr

/-- Strict order on release versions: lexicographic on components. -/
def Version.lt (a b : Version) : Bool :=
  if a.major = b.major then
    if a.minor = b.minor then decide (a.micro < b.micro)
    else decide (a.minor < b.minor)
  else decide (a.major < b.major)

/-- Non-strict order on release versions: lexicographic on components. -/
def Version.le (a b : Version) : Bool :=
  if a.major = b.major then
    if a.minor = b.minor then decide (a.micro ≤ b.micro)
    else decide (a.minor < b.minor)
  else decide (a.major < b.major)

/-- `str()` of a parsed release version. -/
def Version.str (v : Version) : String :=
  toString v.major ++ "." ++ toString v.minor ++ "." ++ toString v.micro

/-- Logging levels used by the module's named logger. -/
inductive LogLevel where
  | debug
  | info
  | warning
  | error
deriving DecidableEq, Repr

/-- Observable events of a probe run: log lines, attempted imports of
external libraries, and attempted adapter-config loads. -/
inductive Event where
  | log (lvl : LogLevel) (msg : String)
  | triedImport (mod : String)
  | triedLoadAdapter (path : String)
deriving DecidableEq, Repr

/-- Control outcome of a probe invocation. -/
inductive PResult where
  | ok
  | exited (code : Nat)
  | raised (ty : String) (msg : String)
deriving DecidableEq, Repr

/-- A caught Python exception: whether it is a `RuntimeError` (the class the
kernel-compiler probe special-cases), its type name, and its `args` tuple
(restricted to string arguments, the only kind this module inspects). -/
structure PyExc where
  isRuntimeError : Bool
  ty : String
  args : List String
deriving DecidableEq, Repr

/-- `str(e)` for an exception: empty for no args, the sole arg for one,
the rendered args tuple otherwise. -/
def PyExc.text (e : PyExc) : String :=
  match e.args with
  | [] => ""
  | [a] => a
  | as => "(" ++ String.intercalate ", " (as.map (fun s => "\x27" ++ s ++ "\x27")) ++ ")"

/-- Does `pat` occur at the head of `s`? (Python `str.startswith` on char
lists; building block of the `in` substring test.) -/
def listLeads : List Char → List Char → Bool
  | [], _ => true
  | _ :: _, [] => false
  | a :: as, b :: bs => a == b && listLeads as bs

/-- Does `pat` occur somewhere in `s`? (char-list substring occurrence). -/
def listHas (pat : List Char) : List Char → Bool
  | [] => listLeads pat []
  | c :: rest => listLeads pat (c :: rest) || listHas pat rest

/-- Python's `pat in s` substring test on strings. -/
def strHas (s pat : String) : Bool :=
  listHas pat.data s.data

/-- ANSI red escape used to frame the fatal error message. -/
def redColor : String := "\x1b[31m"

/-- ANSI reset escape closing the frame. -/
def resetColor : String := "\x1b[0m"

/-- The generic remediation text used when the caller supplies none. -/
def defaultRemediation : String := "Please ensure it has been installed correctly."

/-- The diagnostic reporter `_handle_exception(e, mod_name, logger, message)`:
defaults the remediation message, logs the exception at debug level, logs the
exception summary and the framed remediation text at error level, then calls
`exit(1)`. -/
def _handle_exception (e : PyExc) (mod_name : String) (message : Option String) :
    List Event × PResult :=
  let message := message.getD defaultRemediation
  ([Event.log .debug "Exception",
    Event.log .error (e.ty ++ ": " ++ e.text),
    Event.log .error (redColor ++ "<" ++ mod_name ++ "> test failed!\n" ++ message ++ resetColor)],
   PResult.exited 1)

/-- `MAX_TRITON_VERSION = '3.0.0'`, parsed. -/
def MAX_TRITON_VERSION : Version := ⟨3, 0, 0⟩

/-- `TRITON_VER_231 = version.parse('2.3.1')`. -/
def TRITON_VER_231 : Version := ⟨2, 3, 1⟩

/-- `MIN_TRANSFORMERS_VERSION = '4.33.0'`, parsed. -/
def MIN_TRANSFORMERS_VERSION : Version := ⟨4, 33, 0⟩

/-- `MAX_TRANSFORMERS_VERSION = '4.44.1'`, parsed. -/
def MAX_TRANSFORMERS_VERSION : Version := ⟨4, 44, 1⟩

/-- The generic remediation text `msg` of `check_env_triton`. -/
def tritonGenericMsg : String :=
  "Please ensure that your device is functioning properly with <Triton>.\n" ++
  "You can verify your environment by running " ++
  "`python -m lmdeploy.pytorch.check_env.triton_custom_add`."

/-- The driver/compiler-mismatch signature `ptxas_error` searched for in the
first argument of a caught `RuntimeError`. -/
def ptxasError : String := "device kernel image is invalid"

/-- The targeted remediation substituted on the ptxas signature. -/
def tritonPtxasMsg : String :=
  "This Error might caused by mismatching between NVIDIA Driver and nvcc compiler. \n" ++
  "Try solution https://github.com/triton-lang/triton/issues/1955#issuecomment-1929908209" ++
  " or reinstall the driver."

/-- Remediation message selection of `check_env_triton`'s handlers: the
`except RuntimeError` branch substitutes the targeted message when the
exception has at least one argument and the first contains the ptxas
signature; any other caught exception keeps the generic message. -/
def tritonFailMsg (e : PyExc) : String :=
  if e.isRuntimeError && !(e.args.isEmpty) && strHas (e.args.headD "") ptxasError then
    tritonPtxasMsg
  else
    tritonGenericMsg

/-- The externally-determined facts of one `check_env_triton` run:
whether the imports / version parse failed (with which exception), the parsed
`triton.__version__` (meaningful when the imports succeeded), whether the
custom-kernel smoke test failed, and `torch.cuda.get_device_capability()[0]`. -/
structure TritonEnv where
  importFail : Option PyExc
  tritonVersion : Version
  smokeFail : Option PyExc
  devCapMajor : Nat
deriving DecidableEq, Repr

/-- `check_env_triton(device)`: the try block logs a debug line, imports
torch and triton, parses the triton version, warns when it exceeds
`MAX_TRITON_VERSION`, and runs the custom-add smoke test; any caught failure
is reported via `_handle_exception` with `tritonFailMsg`.  After a successful
try block, on a cuda device with capability major ≤ 7 and triton ≤ 2.3.1 a
`RuntimeError` is constructed and reported fatally. -/
def check_env_triton (device : String) (env : TritonEnv) : List Event × PResult :=
  let pre := [Event.log .debug "Checking <Triton> environment."]
  match env.importFail with
  | some e =>
    let r := _handle_exception e "Triton" (some (tritonFailMsg e))
    (pre ++ r.1, r.2)
  | none =>
    let warnT :=
      if Version.lt MAX_TRITON_VERSION env.tritonVersion then
        [Event.log .warning "Engine has not been tested on triton>3.0.0."]
      else []
    match env.smokeFail with
    | some e =>
      let r := _handle_exception e "Triton" (some (tritonFailMsg e))
      (pre ++ warnT ++ r.1, r.2)
    | none =>
      if device == "cuda" then
        if env.devCapMajor ≤ 7 then
          if Version.le env.tritonVersion TRITON_VER_231 then
            let err : PyExc :=
              ⟨true, "RuntimeError",
               ["Attention triton kernel does not fully support " ++
                "triton<3.0.0 on device with capability<8. " ++
                "Please upgrade your triton version."]⟩
            let r := _handle_exception err "Triton" none
            (pre ++ warnT ++ r.1, r.2)
          else (pre ++ warnT, PResult.ok)
        else (pre ++ warnT, PResult.ok)
      else (pre ++ warnT, PResult.ok)

/-- The inner `__check_transformers_version`: logs a debug line; on a failed
transformers import (or unparsable version) reports fatally with the default
remediation; otherwise warns exactly when the installed version falls outside
the inclusive `[MIN_TRANSFORMERS_VERSION, MAX_TRANSFORMERS_VERSION]` range.
The import outcome is passed as `Except`: `.error e` is a failed import,
`.ok v` the successfully parsed installed version. -/
def __check_transformers_version (imported : Except PyExc Version) :
    List Event × PResult :=
  let pre := [Event.log .debug "Checking <transformers> version."]
  match imported with
  | .error e =>
    let r := _handle_exception e "transformers" none
    (pre ++ r.1, r.2)
  | .ok v =>
    if Version.lt v MIN_TRANSFORMERS_VERSION || Version.lt MAX_TRANSFORMERS_VERSION v then
      (pre ++ [Event.log .warning
        ("LMDeploy requires transformers version: [4.33.0 ~ 4.44.1], " ++
         "but found version: " ++ v.str)], PResult.ok)
    else (pre, PResult.ok)

/-- The inner `__check_model_transformers_version(config, trans_version)`:
when the loaded config declares a `transformers_version`, assert the installed
version is greater-or-equal; on assertion failure report fatally with a
message naming the required and the installed version. -/
def __check_model_transformers_version (model_path : String)
    (declared : Option Version) (installed : Version) : List Event × PResult :=
  let pre := [Event.log .debug "Checking <Model> required transformers version."]
  match declared with
  | none => (pre, PResult.ok)
  | some m =>
    if Version.le m installed then (pre, PResult.ok)
    else
      let e : PyExc := ⟨false, "AssertionError", ["Version mismatch."]⟩
      let message :=
        "model `" ++ model_path ++ "` requires " ++
        "transformers version " ++ m.str ++ " " ++
        "but transformers " ++ installed.str ++ " is installed."
      let r := _handle_exception e "transformers" (some message)
      (pre ++ r.1, r.2)

/-- Declared compute dtypes a model config can resolve to. -/
inductive TorchDtype where
  | float16
  | bfloat16
  | float32
deriving DecidableEq, Repr

/-- `str()` of a torch dtype. -/
def TorchDtype.str : TorchDtype → String
  | .float16 => "torch.float16"
  | .bfloat16 => "torch.bfloat16"
  | .float32 => "torch.float32"

/-- Outcome of the `ModelConfig.from_hf_config` call inside the dtype probe:
either it returns a config with a resolved dtype, or it raises an
`AssertionError`, or it raises some other exception. -/
inductive HfcfgStep where
  | ok (dtype : TorchDtype)
  | raiseAssertionErr (args : List String)
  | raiseOtherErr (ty : String) (args : List String)
deriving DecidableEq, Repr

/-- The inner `__check_model_dtype_support(config, device_type)`: derives the
model dtype, asserts bf16 support on the device when the dtype is bfloat16
(caught `AssertionError` reported fatally with an override hint), and reports
any other exception fatally.  When `from_hf_config` itself raises an
`AssertionError`, the handler evaluates a message referencing the local
`model_config`, which was never bound: that evaluation raises an
`UnboundLocalError` that escapes the probe. -/
def __check_model_dtype_support (fromHf : HfcfgStep) (bf16Supported : Bool) :
    List Event × PResult :=
  let pre := [Event.log .debug "Checking <Model> dtype support."]
  match fromHf with
  | .ok dtype =>
    if dtype == TorchDtype.bfloat16 && !bf16Supported then
      let e : PyExc := ⟨false, "AssertionError", ["bf16 is not supported on your device"]⟩
      let message :=
        "Your device does not support `" ++ dtype.str ++ "`. " ++
        "You can set `dtype` to float16 in PyTorchEngineConfig or " ++
        "`--dtype float16` to api_server.\n" ++
        "Note that this might have negative effect!"
      let r := _handle_exception e "Model" (some message)
      (pre ++ r.1, r.2)
    else (pre, PResult.ok)
  | .raiseAssertionErr _ =>
    (pre, PResult.raised "UnboundLocalError"
      "local variable model_config referenced before assignment")
  | .raiseOtherErr ty args =>
    let e : PyExc := ⟨false, ty, args⟩
    let message :=
      "(\x27Checking failed with error " ++ e.text ++ "\x27, " ++
      "\x27Please send issue to LMDeploy with error logs.\x27)"
    let r := _handle_exception e "Model" (some message)
    (pre ++ r.1, r.2)

/-- Lookup in a Python dict rendered as an association list
(`d.get(k, None)`). -/
def dictGet (d : List (String × String)) (k : String) : Option String :=
  match d.find? (fun kv => kv.1 == k) with
  | some kv => some kv.2
  | none => none

/-- The externally-determined facts of one `check_awq` run: the config's
`quantization_config` attribute (absent, or present as a dict), and the
outcomes of the `awq` and `awq_ext` imports. -/
structure AwqEnv where
  quantization_config : Option (List (String × String))
  awqImportFail : Option PyExc
  awqExtImportFail : Option PyExc
deriving DecidableEq, Repr

/-- The warning logged when the accelerated `awq_ext` extension is missing. -/
def awqExtWarnMsg : String :=
  "Failed to import `awq_ext`. " ++
  "Try reinstall it from source: " ++
  "https://github.com/casper-hansen/AutoAWQ_kernels"

/-- `check_awq(hf_config, device_type)`: only on a cuda device whose config
dict declares `quant_method == 'awq'` does anything happen; a failed load
of `awq` is fatal via `_handle_exception`, a failed load of `awq_ext` logs a
debug line and a warning and execution continues. -/
def check_awq (device_type : String) (env : AwqEnv) : List Event × PResult :=
  if device_type == "cuda" then
    let quantization_config := env.quantization_config.getD []
    let quant_method := dictGet quantization_config "quant_method"
    if quant_method ≠ some "awq" then ([], PResult.ok)
    else
      match env.awqImportFail with
      | some e =>
        let r := _handle_exception e "autoawq" none
        (Event.triedImport "awq" :: r.1, r.2)
      | none =>
        match env.awqExtImportFail with
        | some _ =>
          ([Event.triedImport "awq", Event.triedImport "awq_ext",
            Event.log .debug "Exception:",
            Event.log .warning awqExtWarnMsg], PResult.ok)
        | none =>
          ([Event.triedImport "awq", Event.triedImport "awq_ext"], PResult.ok)
  else ([], PResult.ok)

/-- The generic remediation of a failed adapter-config load. -/
def peftLoadMsg : String :=
  "Please make sure the adapter can be loaded with " ++
  "`peft.PeftConfig.from_pretrained`\n"

/-- The signature searched for in the failure's first argument. -/
def unexpectedKwSignature : String := "got an unexpected keyword argument"

/-- The keyword-stripping hint appended on that signature. -/
def adapterKwHint : String :=
  "Or try remove all unexpected keywords " ++
  "in `adapter_config.json`."

/-- The remediation message built by `check_adapter`'s handler: the failure
text is the first exception argument, or the empty string when the args tuple
is empty; the keyword hint is appended exactly when the text contains the
unexpected-keyword signature. -/
def adapter_failure_message (args : List String) : String :=
  let err_msg := match args with
    | [] => ""
    | a :: _ => a
  if strHas err_msg unexpectedKwSignature then peftLoadMsg ++ adapterKwHint
  else peftLoadMsg

/-- `check_adapter(path)`: logs a debug line, attempts to load the adapter
config via peft; on any caught failure reports fatally with
`adapter_failure_message`. -/
def check_adapter (path : String) (loadFail : Option PyExc) : List Event × PResult :=
  let pre := [Event.log .debug ("Checking <Adapter>: " ++ path ++ "."),
              Event.triedLoadAdapter path]
  match loadFail with
  | none => (pre, PResult.ok)
  | some e =>
    let r := _handle_exception e "Model" (some (adapter_failure_message e.args))
    (pre ++ r.1, r.2)

/-- Sequential run of `check_adapter` over the adapter list; a non-`ok`
outcome (the process exited) cuts the sequence short. -/
def runAdapters : List (String × Option PyExc) → List Event × PResult
  | [] => ([], PResult.ok)
  | (p, f) :: rest =>
    let res := check_adapter p f
    match res.2 with
    | PResult.ok =>
      let tail := runAdapters rest
      (res.1 ++ tail.1, tail.2)
    | other => (res.1, other)

/-- `check_adapters(adapter_paths)`: returns immediately on an empty
sequence; otherwise logs an info line and checks each adapter in order. -/
def check_adapters (adapters : List (String × Option PyExc)) : List Event × PResult :=
  if adapters.length ≤ 0 then ([], PResult.ok)
  else
    let run := runAdapters adapters
    (Event.log .info "Checking adapters." :: run.1, run.2)

/-! ### Observation helpers and substring lemmas -/

/-- Is this event a warning log line? -/
def isWarnEvent : Event → Bool
  | .log .warning _ => true
  | _ => false

/-- Does the trace contain a warning log line? -/
def hasWarning (t : List Event) : Bool := t.any isWarnEvent

/-- Is this event an error log line whose text contains `s`? -/
def isErrorWith (s : String) : Event → Bool
  | .log .error m => strHas m s
  | _ => false

/-- Does the trace contain an error log line whose text contains `s`? -/
def hasErrorWith (t : List Event) (s : String) : Bool := t.any (isErrorWith s)

theorem listLeads_self_append (p t : List Char) : listLeads p (p ++ t) = true := by
  induction p with
  | nil => rfl
  | cons a as ih => simp [listLeads, ih]

theorem listLeads_refl (p : List Char) : listLeads p p = true := by
  have h := listLeads_self_append p []
  simpa using h

theorem listLeads_mono (p s t : List Char) (h : listLeads p s = true) :
    listLeads p (s ++ t) = true := by
  induction p generalizing s with
  | nil => rfl
  | cons a as ih =>
    cases s with
    | nil => simp [listLeads] at h
    | cons b bs =>
      simp only [listLeads, Bool.and_eq_true] at h
      simp [listLeads, h.1, ih bs h.2]

theorem listHas_of_leads (p s : List Char) (h : listLeads p s = true) :
    listHas p s = true := by
  cases s with
  | nil =>
    cases p with
    | nil => rfl
    | cons a as => simp [listLeads] at h
  | cons c rest => simp [listHas, h]

theorem listHas_mono_left (p xs ys : List Char) (h : listHas p xs = true) :
    listHas p (xs ++ ys) = true := by
  induction xs with
  | nil =>
    cases p with
    | nil => exact listHas_of_leads _ _ (listLeads_refl [])
    | cons a as => simp [listHas, listLeads] at h
  | cons x rest ih =>
    simp only [listHas, Bool.or_eq_true] at h
    rcases h with h | h
    · simp only [List.cons_append, listHas]
      have := listLeads_mono p (x :: rest) ys h
      simp only [List.cons_append] at this
      simp [this]
    · simp [List.cons_append, listHas, ih h]

theorem listHas_mono_right (p xs ys : List Char) (h : listHas p ys = true) :
    listHas p (xs ++ ys) = true := by
  induction xs with
  | nil => simpa using h
  | cons x rest ih => simp [List.cons_append, listHas, ih]

theorem strHas_refl (pat : String) : strHas pat pat = true :=
  listHas_of_leads _ _ (listLeads_refl pat.data)

theorem strHas_mono_left (a b pat : String) (h : strHas a pat = true) :
    strHas (a ++ b) pat = true := by
  simp only [strHas, String.data_append]
  exact listHas_mono_left _ _ _ h

theorem strHas_mono_right (a b pat : String) (h : strHas b pat = true) :
    strHas (a ++ b) pat = true := by
  simp only [strHas, String.data_append]
  exact listHas_mono_right _ _ _ h

/-- The framed error line emitted by `_handle_exception` contains any
substring of the remediation message. -/
theorem hasErrorWith_frame (pre : List Event) (e : PyExc) (mod pat msg : String)
    (h : strHas msg pat = true) :
    hasErrorWith (pre ++ (_handle_exception e mod (some msg)).1) pat = true := by
  have hframe : strHas
      (redColor ++ "<" ++ mod ++ "> test failed!\n" ++ msg ++ resetColor) pat = true :=
    strHas_mono_left _ _ _ (strHas_mono_right _ _ _ h)
  simp [hasErrorWith, _handle_exception, isErrorWith, List.any_append, hframe]

theorem version_le_eq_false_of_lt (a b : Version) (h : Version.lt a b = true) :
    Version.le b a = false := by
  rcases a with ⟨a1, a2, a3⟩; rcases b with ⟨b1, b2, b3⟩
  simp only [Version.lt, Version.le] at h ⊢
  split_ifs at h ⊢ <;> simp_all <;> omega

/-! ### Claim theorems -/

/-- Claim C4: for every call to the diagnostic reporter with a failure, a
subsystem name and an optional remediation message, it logs the full failure
detail at debug level, logs the failure summary and the remediation text at
error level, then terminates with exit status 1 and never returns; when no
remediation message is supplied, the generic text
"Please ensure it has been installed correctly." is used. -/
theorem c4_reporter_logs_and_exits (e : PyExc) (mod_name msg : String) :
    (_handle_exception e mod_name (some msg)).2 = PResult.exited 1 ∧
    (_handle_exception e mod_name none).2 = PResult.exited 1 ∧
    (_handle_exception e mod_name (some msg)).1 =
      [Event.log .debug "Exception",
       Event.log .error (e.ty ++ ": " ++ e.text),
       Event.log .error
         (redColor ++ "<" ++ mod_name ++ "> test failed!\n" ++ msg ++ resetColor)] ∧
    (_handle_exception e mod_name none).1 =
      [Event.log .debug "Exception",
       Event.log .error (e.ty ++ ": " ++ e.text),
       Event.log .error
         (redColor ++ "<" ++ mod_name ++ "> test failed!\n" ++
          "Please ensure it has been installed correctly." ++ resetColor)] :=
  ⟨rfl, rfl, rfl, rfl⟩

/-- Claim C8: `check_adapters` on the empty sequence is a no-op: it returns
normally with an empty event trace (no log lines, no adapter-config load
attempts) and does not terminate the process. -/
theorem c8_empty_adapters_noop : check_adapters [] = ([], PResult.ok) := rfl

/-- Claim C3 (refuted by the code): the dtype probe's `except AssertionError`
handler builds its message from the local `model_config`; when the
`ModelConfig.from_hf_config` call itself raises the `AssertionError`, that
local was never bound, so evaluating the message raises an
`UnboundLocalError` that escapes the probe to its caller instead of being
routed through the diagnostic reporter. -/
theorem c3_dtype_probe_propagates_exception :
    (__check_model_dtype_support
        (HfcfgStep.raiseAssertionErr ["Unsupported model dtype"]) true).2 =
      PResult.raised "UnboundLocalError"
        "local variable model_config referenced before assignment" := rfl

/-- Claim C10: in `check_adapter`, a caught exception with an empty args
tuple is treated as having empty failure text, so the keyword-stripping hint
is never appended: the generic load-with-peft remediation is framed in the
error log and the probe exits with status 1 rather than crashing. -/
theorem c10_adapter_empty_args (path ty : String) (isrt : Bool) :
    adapter_failure_message ([] : List String) = peftLoadMsg ∧
    (check_adapter path (some ⟨isrt, ty, []⟩)).2 = PResult.exited 1 ∧
    (check_adapter path (some ⟨isrt, ty, []⟩)).1 =
      [Event.log .debug ("Checking <Adapter>: " ++ path ++ "."),
       Event.triedLoadAdapter path,
       Event.log .debug "Exception",
       Event.log .error (ty ++ ": " ++ ""),
       Event.log .error
         (redColor ++ "<Model> test failed!\n" ++ peftLoadMsg ++ resetColor)] :=
  ⟨rfl, rfl, rfl⟩

/-- Claim C2: for every successfully parsed installed transformers version,
the range check warns exactly when the version is strictly below
4.33.0 or strictly above 4.44.1; at either bound it emits nothing beyond its
debug line and returns normally. -/
theorem c2_transformers_version_range (v : Version) :
    (hasWarning (__check_transformers_version (Except.ok v)).1 =
      (Version.lt v MIN_TRANSFORMERS_VERSION ||
       Version.lt MAX_TRANSFORMERS_VERSION v)) ∧
    (__check_transformers_version (Except.ok v)).2 = PResult.ok ∧
    __check_transformers_version (Except.ok ⟨4, 33, 0⟩) =
      ([Event.log .debug "Checking <transformers> version."], PResult.ok) ∧
    __check_transformers_version (Except.ok ⟨4, 44, 1⟩) =
      ([Event.log .debug "Checking <transformers> version."], PResult.ok) ∧
    hasWarning (__check_transformers_version (Except.ok ⟨4, 32, 99⟩)).1 = true ∧
    hasWarning (__check_transformers_version (Except.ok ⟨4, 44, 2⟩)).1 = true := by
  refine ⟨?_, ?_, rfl, rfl, rfl, rfl⟩
  · cases h : (Version.lt v MIN_TRANSFORMERS_VERSION ||
        Version.lt MAX_TRANSFORMERS_VERSION v) with
    | true => simp [__check_transformers_version, h, hasWarning, isWarnEvent]
    | false => simp [__check_transformers_version, h, hasWarning, isWarnEvent]
  · cases h : (Version.lt v MIN_TRANSFORMERS_VERSION ||
        Version.lt MAX_TRANSFORMERS_VERSION v) with
    | true => simp [__check_transformers_version, h]
    | false => simp [__check_transformers_version, h]

/-- Claim C1: in a `check_env_triton` run targeting cuda whose import and
smoke-test phase succeeds, the per-hardware fatal path (report and terminate)
triggers exactly when the device capability major version is at most 7 and
the triton version is at most 2.3.1; capability 7 triggers while 8 does not,
and triton 2.3.1 triggers while 2.3.2 does not. -/
theorem c1_triton_capability_gate :
    (∀ env : TritonEnv, env.importFail = none → env.smokeFail = none →
      ((check_env_triton "cuda" env).2 = PResult.exited 1 ↔
        env.devCapMajor ≤ 7 ∧ Version.le env.tritonVersion TRITON_VER_231 = true)) ∧
    (check_env_triton "cuda" ⟨none, ⟨2, 3, 1⟩, none, 7⟩).2 = PResult.exited 1 ∧
    (check_env_triton "cuda" ⟨none, ⟨2, 3, 1⟩, none, 8⟩).2 = PResult.ok ∧
    (check_env_triton "cuda" ⟨none, ⟨2, 3, 2⟩, none, 7⟩).2 = PResult.ok ∧
    hasErrorWith (check_env_triton "cuda" ⟨none, ⟨2, 3, 1⟩, none, 7⟩).1
      defaultRemediation = true := by
  refine ⟨?_, rfl, rfl, rfl, by decide⟩
  rintro ⟨imf, v, smf, cap⟩ h1 h2
  simp only at h1 h2
  subst h1; subst h2
  simp only [check_env_triton]
  by_cases hcap : cap ≤ 7
  · by_cases hle : Version.le v TRITON_VER_231 = true
    · simp [hcap, hle, _handle_exception]
    · simp [hcap, hle]
  · simp [hcap]

/-- Witness for Claim C1 at the concrete boundary input: capability major 7
with triton 2.3.1 and a successful smoke phase terminates the process. -/
theorem c1_triton_capability_gate_witness :
    (check_env_triton "cuda" ⟨none, ⟨2, 3, 1⟩, none, 7⟩).2 = PResult.exited 1 :=
  (c1_triton_capability_gate.1 ⟨none, ⟨2, 3, 1⟩, none, 7⟩ rfl rfl).mpr (by decide)

/-- Claim C5: when the loaded config declares a transformers version strictly
greater than the installed one, the per-model check reports fatally with a
message naming both versions and the process exits with status 1; when the
installed version is at least the declared one, or none is declared, the
check passes silently; in particular a config declaring 4.50.0 against an
installed 4.44.1 is fatal. -/
theorem c5_model_required_version (path : String) (m v : Version) :
    (Version.lt v m = true →
      (__check_model_transformers_version path (some m) v).2 = PResult.exited 1 ∧
      hasErrorWith (__check_model_transformers_version path (some m) v).1 m.str = true ∧
      hasErrorWith (__check_model_transformers_version path (some m) v).1 v.str = true) ∧
    (Version.le m v = true →
      __check_model_transformers_version path (some m) v =
        ([Event.log .debug "Checking <Model> required transformers version."],
         PResult.ok)) ∧
    __check_model_transformers_version path none v =
      ([Event.log .debug "Checking <Model> required transformers version."],
       PResult.ok) ∧
    (__check_model_transformers_version "/path/to/model"
        (some ⟨4, 50, 0⟩) ⟨4, 44, 1⟩).2 = PResult.exited 1 := by
  refine ⟨?_, ?_, rfl, rfl⟩
  · intro hlt
    have hle : Version.le m v = false := version_le_eq_false_of_lt v m hlt
    have hmsg : strHas
        ("model `" ++ path ++ "` requires " ++ "transformers version " ++ m.str ++
         " " ++ "but transformers " ++ v.str ++ " is installed.") m.str = true := by
      refine strHas_mono_left _ _ _ ?_
      refine strHas_mono_left _ _ _ ?_
      refine strHas_mono_left _ _ _ ?_
      refine strHas_mono_left _ _ _ ?_
      exact strHas_mono_right _ _ _ (strHas_refl m.str)
    have hmsg' : strHas
        ("model `" ++ path ++ "` requires " ++ "transformers version " ++ m.str ++
         " " ++ "but transformers " ++ v.str ++ " is installed.") v.str = true := by
      refine strHas_mono_left _ _ _ ?_
      exact strHas_mono_right _ _ _ (strHas_refl v.str)
    refine ⟨?_, ?_, ?_⟩
    · simp [__check_model_transformers_version, hle, _handle_exception]
    · have := hasErrorWith_frame
        [Event.log .debug "Checking <Model> required transformers version."]
        ⟨false, "AssertionError", ["Version mismatch."]⟩ "transformers" m.str _ hmsg
      simpa [__check_model_transformers_version, hle] using this
    · have := hasErrorWith_frame
        [Event.log .debug "Checking <Model> required transformers version."]
        ⟨false, "AssertionError", ["Version mismatch."]⟩ "transformers" v.str _ hmsg'
      simpa [__check_model_transformers_version, hle] using this
  · intro hle
    simp [__check_model_transformers_version, hle]

/-- Witness for Claim C5 at the concrete scenario: declared 4.50.0 against
installed 4.44.1 exits with status 1 and names both versions in the error
log. -/
theorem c5_model_required_version_witness :
    (__check_model_transformers_version "/path/to/model"
        (some ⟨4, 50, 0⟩) ⟨4, 44, 1⟩).2 = PResult.exited 1 ∧
    hasErrorWith (__check_model_transformers_version "/path/to/model"
        (some ⟨4, 50, 0⟩) ⟨4, 44, 1⟩).1 (Version.str ⟨4, 50, 0⟩) = true :=
  let h := (c5_model_required_version "/path/to/model" ⟨4, 50, 0⟩ ⟨4, 44, 1⟩).1
    (by decide)
  ⟨h.1, h.2.1⟩

/-- Claim C7: on every adapter-config load failure the probe reports via the
diagnostic reporter and exits with status 1, and the remediation message is
the generic load-with-peft hint with the keyword-stripping hint appended
exactly when the failure text (its first argument, empty if none) contains
"got an unexpected keyword argument". -/
theorem c7_adapter_remediation (path : String) (e : PyExc) :
    (check_adapter path (some e)).2 = PResult.exited 1 ∧
    hasErrorWith (check_adapter path (some e)).1 (adapter_failure_message e.args) = true ∧
    (adapter_failure_message e.args = peftLoadMsg ++ adapterKwHint ↔
      strHas (e.args.headD "") unexpectedKwSignature = true) ∧
    (adapter_failure_message e.args = peftLoadMsg ↔
      strHas (e.args.headD "") unexpectedKwSignature = false) := by
  have hne : peftLoadMsg ++ adapterKwHint ≠ peftLoadMsg := by decide
  have hm : adapter_failure_message e.args =
      (if strHas (e.args.headD "") unexpectedKwSignature then
        peftLoadMsg ++ adapterKwHint else peftLoadMsg) := by
    rcases e with ⟨irt, ty, args⟩
    cases args <;> rfl
  refine ⟨by simp [check_adapter, _handle_exception], ?_, ?_, ?_⟩
  · have h2 := hasErrorWith_frame
      [Event.log .debug ("Checking <Adapter>: " ++ path ++ "."),
       Event.triedLoadAdapter path] e "Model"
      (adapter_failure_message e.args) (adapter_failure_message e.args)
      (strHas_refl _)
    simpa [check_adapter] using h2
  · rw [hm]
    cases hs : strHas (e.args.headD "") unexpectedKwSignature <;>
      simp [hs, hne, Ne.symm hne]
  · rw [hm]
    cases hs : strHas (e.args.headD "") unexpectedKwSignature <;>
      simp [hs, hne, Ne.symm hne]

/-- Claim C9: the quantization probe does nothing (no import attempt, no log
line) unless the device is cuda and the config's quantization section
declares the quant method awq (an absent section counts as not declaring
it); when it applies, a failed `awq` import is fatal with the default
remediation, while a failed `awq_ext` import only logs a debug line and a
warning and the probe returns normally. -/
theorem c9_awq_gating :
    (∀ (dev : String) (env : AwqEnv), dev ≠ "cuda" →
      check_awq dev env = ([], PResult.ok)) ∧
    (∀ env : AwqEnv,
      dictGet (env.quantization_config.getD []) "quant_method" ≠ some "awq" →
      check_awq "cuda" env = ([], PResult.ok)) ∧
    (∀ f1 f2 : Option PyExc, check_awq "cuda" ⟨none, f1, f2⟩ = ([], PResult.ok)) ∧
    (∀ (q : Option (List (String × String))) (e : PyExc) (x : Option PyExc),
      dictGet (q.getD []) "quant_method" = some "awq" →
      (check_awq "cuda" ⟨q, some e, x⟩).2 = PResult.exited 1 ∧
      hasErrorWith (check_awq "cuda" ⟨q, some e, x⟩).1 defaultRemediation = true) ∧
    (∀ (q : Option (List (String × String))) (x : PyExc),
      dictGet (q.getD []) "quant_method" = some "awq" →
      check_awq "cuda" ⟨q, none, some x⟩ =
        ([Event.triedImport "awq", Event.triedImport "awq_ext",
          Event.log .debug "Exception:",
          Event.log .warning awqExtWarnMsg], PResult.ok)) := by
  refine ⟨?_, ?_, ?_, ?_, ?_⟩
  · intro dev env hdev
    simp [check_awq, hdev]
  · intro env h
    simp [check_awq, h]
  · intro f1 f2
    rfl
  · intro q e x h
    constructor
    · simp [check_awq, h, _handle_exception]
    · have h2 := hasErrorWith_frame [Event.triedImport "awq"] e "autoawq"
        defaultRemediation defaultRemediation (strHas_refl _)
      simpa [check_awq, h, _handle_exception] using h2
  · intro q x h
    simp [check_awq, h]

/-- Witness for Claim C9 at a concrete applicable input: a cuda device, a
config declaring quant method awq, and a failed `awq` import terminate the
process. -/
theorem c9_awq_gating_witness :
    (check_awq "cuda" ⟨some [("quant_method", "awq")],
        some ⟨false, "ModuleNotFoundError", ["No module named awq"]⟩, none⟩).2 =
      PResult.exited 1 :=
  (c9_awq_gating.2.2.2.1 (some [("quant_method", "awq")])
    ⟨false, "ModuleNotFoundError", ["No module named awq"]⟩ none rfl).1

/-- Claim C6 counterexample: a failure of the import/smoke-test phase that is
not a RuntimeError, yet whose failure text contains the driver/compiler
mismatch signature "device kernel image is invalid", is reported with the
generic Triton remediation, not the targeted driver-reinstall one — refuting
the claim that the signature in the failure text alone selects the targeted
message. -/
theorem c6_counterexample :
    strHas (PyExc.text ⟨false, "AssertionError", ["device kernel image is invalid"]⟩)
      ptxasError = true ∧
    (check_env_triton "cuda"
        ⟨some ⟨false, "AssertionError", ["device kernel image is invalid"]⟩,
         ⟨3, 0, 0⟩, none, 8⟩).2 = PResult.exited 1 ∧
    hasErrorWith (check_env_triton "cuda"
        ⟨some ⟨false, "AssertionError", ["device kernel image is invalid"]⟩,
         ⟨3, 0, 0⟩, none, 8⟩).1 tritonPtxasMsg = false ∧
    hasErrorWith (check_env_triton "cuda"
        ⟨some ⟨false, "AssertionError", ["device kernel image is invalid"]⟩,
         ⟨3, 0, 0⟩, none, 8⟩).1 tritonGenericMsg = true := by
  refine ⟨by decide, rfl, by decide, by decide⟩

/-- Claim C6 (amended): every failure of the import/smoke-test phase is
routed through the diagnostic reporter and terminates, and the remediation
message is the targeted driver-reinstall one exactly when the failure is a
RuntimeError with at least one argument whose first argument contains
"device kernel image is invalid"; every other failure gets the generic
Triton remediation. -/
theorem c6_triton_failure_remediation (dev : String) :
    (∀ (env : TritonEnv) (e : PyExc), env.importFail = some e →
      (check_env_triton dev env).2 = PResult.exited 1 ∧
      hasErrorWith (check_env_triton dev env).1 (tritonFailMsg e) = true) ∧
    (∀ (env : TritonEnv) (e : PyExc), env.importFail = none → env.smokeFail = some e →
      (check_env_triton dev env).2 = PResult.exited 1 ∧
      hasErrorWith (check_env_triton dev env).1 (tritonFailMsg e) = true) ∧
    (∀ e : PyExc,
      (tritonFailMsg e = tritonPtxasMsg ↔
        e.isRuntimeError = true ∧ e.args ≠ [] ∧
        strHas (e.args.headD "") ptxasError = true) ∧
      (tritonFailMsg e = tritonPtxasMsg ∨ tritonFailMsg e = tritonGenericMsg)) := by
  have hne : tritonGenericMsg ≠ tritonPtxasMsg := by decide
  refine ⟨?_, ?_, ?_⟩
  · rintro ⟨imf, v, smf, cap⟩ e h
    simp only at h
    subst h
    constructor
    · simp [check_env_triton, _handle_exception]
    · simpa [check_env_triton] using
        hasErrorWith_frame [Event.log .debug "Checking <Triton> environment."]
          e "Triton" (tritonFailMsg e) (tritonFailMsg e) (strHas_refl _)
  · rintro ⟨imf, v, smf, cap⟩ e h1 h2
    simp only at h1 h2
    subst h1
    subst h2
    constructor
    · cases hw : Version.lt MAX_TRITON_VERSION v <;>
        simp [check_env_triton, hw, _handle_exception]
    · cases hw : Version.lt MAX_TRITON_VERSION v
      · simpa [check_env_triton, hw] using
          hasErrorWith_frame [Event.log .debug "Checking <Triton> environment."]
            e "Triton" (tritonFailMsg e) (tritonFailMsg e) (strHas_refl _)
      · simpa [check_env_triton, hw] using
          hasErrorWith_frame
            [Event.log .debug "Checking <Triton> environment.",
             Event.log .warning "Engine has not been tested on triton>3.0.0."]
            e "Triton" (tritonFailMsg e) (tritonFailMsg e) (strHas_refl _)
  · rintro ⟨irt, ty, args⟩
    cases irt
    · constructor
      · simp [tritonFailMsg, hne]
      · right; rfl
    · cases args with
      | nil =>
        constructor
        · simp [tritonFailMsg, hne]
        · right; rfl
      | cons a rest =>
        cases hs : strHas a ptxasError
        · constructor
          · simp [tritonFailMsg, hs, hne]
          · right; simp [tritonFailMsg, hs]
        · constructor
          · simp [tritonFailMsg, hs]
          · left; simp [tritonFailMsg, hs]

/-- Witness for amended Claim C6 at a concrete failing input: a RuntimeError
carrying the mismatch signature terminates the run. -/
theorem c6_triton_failure_remediation_witness :
    (check_env_triton "cuda"
        ⟨some ⟨true, "RuntimeError", ["CUDA error: device kernel image is invalid"]⟩,
         ⟨2, 3, 1⟩, none, 8⟩).2 = PResult.exited 1 :=
  ((c6_triton_failure_remediation "cuda").1
    ⟨some ⟨true, "RuntimeError", ["CUDA error: device kernel image is invalid"]⟩,
     ⟨2, 3, 1⟩, none, 8⟩
    ⟨true, "RuntimeError", ["CUDA error: device kernel image is invalid"]⟩ rfl).1

end CheckEnv
